import Mathlib

/-!
Verification of the key provisioning workflow of gen_secrets.py.

The script has three parts: a root locator (find_project_root) that walks
upward from the script directory looking for a marker file, a per-location
key provisioner (generate_keys) that skips, creates the directory and invokes
the external openssl primitive, and a final completion check in main that
re-stats every location and derives the process exit code.

Embedding conventions:
  - a filesystem path is its list of components below the root, so the
    filesystem root is [] and the parent of a path is List.dropLast;
  - the filesystem is a map from paths to optional file contents plus a
    directory predicate; Python Path.exists() is true for files and
    directories alike;
  - the external openssl invocations are a parameter (structure Primitive):
    a call takes the command line and the current filesystem and returns the
    new filesystem and a status (ok, CalledProcessError, FileNotFoundError);
  - an uncaught Python exception is modelled as Except.error; the only
    statement of generate_keys outside its try/except that can raise is
    output_dir.mkdir, which fails when a path component is an existing file;
  - the while loop of the upward walk decreases the length of the current
    path at every step, so it is written structurally with a fuel argument
    equal to that length.
-/

namespace GenSecrets

/-- An absolute filesystem path, as the list of its components below the root.
The root directory is [] and the parent of a path is List.dropLast. -/
abbrev FPath := List String

/-- Filesystem state: which paths are files (with their contents) and which
paths are directories. -/
structure FS where
  files : FPath → Option String
  dirs : FPath → Bool

/-- Python Path.exists(): the path is an existing file or an existing
directory. -/
def pathExists (fs : FS) (p : FPath) : Bool :=
  (fs.files p).isSome || fs.dirs p

/-- gen_secrets.py PRIVATE_KEY_NAME. -/
def PRIVATE_KEY_NAME : String := "privateKey.pem"

/-- gen_secrets.py PUBLIC_KEY_NAME. -/
def PUBLIC_KEY_NAME : String := "publicKey.pem"

/-- The marker file name tested by find_project_root. -/
def MARKER : String := "pom.xml"

/-- First configured location (main resources), relative to the project
root. -/
def loc0 : FPath := ["thunder", "engine", "provider", "src", "main", "resources"]

/-- Second configured location (test resources), relative to the project
root. -/
def loc1 : FPath := ["thunder", "engine", "provider", "src", "test", "resources"]

/-- gen_secrets.py KEY_LOCATIONS: the two configured locations relative to
the project root. -/
def KEY_LOCATIONS : List FPath := [loc0, loc1]

/-- The test (current / "pom.xml").exists() performed at each step of the
upward walk. -/
def hasMarker (fs : FS) (dir : FPath) : Bool :=
  pathExists fs (dir ++ [MARKER])

/-- The while loop of find_project_root, with fuel.  The loop condition
current != current.parent is current ≠ [] in this embedding; each iteration
tests the marker and moves to the parent.  The fuel is the length of the
current path, which decreases by exactly one per iteration, so the fuel
never runs out before the loop condition fails. -/
def find_root_fuel (fs : FS) : Nat → FPath → Option FPath
  | 0, _ => none
  | n + 1, current =>
    if current = [] then none
    else if hasMarker fs current then some current
    else find_root_fuel fs n current.dropLast

/-- The while loop of find_project_root (gen_secrets.py lines 40-44):
returns the first directory on the upward walk containing the marker, or
none when the walk reaches the root without finding it.  The root []
itself is never tested, because the loop stops as soon as the current
directory equals its own parent. -/
def find_root_loop (fs : FS) (current : FPath) : Option FPath :=
  find_root_fuel fs current.length current

/-- gen_secrets.py find_project_root (lines 37-45): walk upward from the
script directory; fall back to the script directory itself when no
directory on the walk contains the marker. -/
def find_project_root (fs : FS) (scriptDir : FPath) : FPath :=
  match find_root_loop fs scriptDir with
  | some r => r
  | none => scriptDir

/-- The directories probed by the upward walk starting at p, with fuel:
p itself, then each ancestor, excluding the root []. -/
def walkDirsFuel : Nat → FPath → List FPath
  | 0, _ => []
  | n + 1, p =>
    if p = [] then []
    else p :: walkDirsFuel n p.dropLast

/-- The directories probed by the upward walk starting at p: p itself and
every proper ancestor of p other than the filesystem root []. -/
def walkDirs (p : FPath) : List FPath :=
  walkDirsFuel p.length p

/-- When no probed directory contains the marker, the fuelled walk finds
nothing. -/
theorem find_root_fuel_eq_none (fs : FS) :
    ∀ (n : Nat) (p : FPath),
      (∀ d ∈ walkDirsFuel n p, hasMarker fs d = false) →
      find_root_fuel fs n p = none := by
  intro n
  induction n with
  | zero => intro p _; rfl
  | succ n ih =>
    intro p hm
    by_cases hp : p = []
    · simp [find_root_fuel, hp]
    · have hmem : p ∈ walkDirsFuel (n + 1) p := by
        simp [walkDirsFuel, hp]
      have hmp := hm p hmem
      have htail : ∀ d ∈ walkDirsFuel n p.dropLast, hasMarker fs d = false := by
        intro d hd
        apply hm
        simp [walkDirsFuel, hp]
        right
        exact hd
      simp [find_root_fuel, hp, hmp]
      exact ih p.dropLast htail

/-- When no probed directory contains the marker, the loop finds nothing. -/
theorem find_root_loop_eq_none (fs : FS) (p : FPath)
    (hm : ∀ d ∈ walkDirs p, hasMarker fs d = false) :
    find_root_loop fs p = none :=
  find_root_fuel_eq_none fs p.length p hm

/-- C6: for every starting path the Root Locator terminates (the walk is a
total structurally recursive function on the finite list of ancestors), and
when no directory on the walk contains the marker file it returns the
original starting directory. -/
theorem C6_root_locator_fallback (fs : FS) (scriptDir : FPath)
    (hwalk : ∀ d ∈ walkDirs scriptDir, hasMarker fs d = false) :
    find_project_root fs scriptDir = scriptDir := by
  unfold find_project_root
  rw [find_root_loop_eq_none fs scriptDir hwalk]

/-- Sample path component. -/
def compA : String := "alpha"

/-- Sample path component. -/
def compB : String := "beta"

/-- A filesystem with no files and no directories. -/
def fsEmpty : FS where
  files := fun _ => none
  dirs := fun _ => false

/-- Witness for C6: on an empty filesystem the locator returns the starting
directory. -/
theorem C6_root_locator_fallback_witness :
    find_project_root fsEmpty [compA, compB] = [compA, compB] :=
  C6_root_locator_fallback fsEmpty [compA, compB] (by decide)

/-- C10: the upward walk never tests the filesystem root [] itself, so a
marker file located exactly at the root is ignored and the starting
directory is returned, provided no non-root directory on the walk has the
marker. -/
theorem C10_marker_at_root_ignored (fs : FS) (scriptDir : FPath)
    (hroot : hasMarker fs [] = true)
    (hwalk : ∀ d ∈ walkDirs scriptDir, hasMarker fs d = false) :
    find_project_root fs scriptDir = scriptDir := by
  unfold find_project_root
  rw [find_root_loop_eq_none fs scriptDir hwalk]

/-- A filesystem whose only entry is a marker file at the filesystem root. -/
def fsMarkerAtRoot : FS where
  files := fun p => if p = [MARKER] then some MARKER else none
  dirs := fun _ => false

/-- Witness for C10: with the marker present exactly at the root, the
locator still returns the starting directory. -/
theorem C10_marker_at_root_ignored_witness :
    find_project_root fsMarkerAtRoot [compA] = [compA] :=
  C10_marker_at_root_ignored fsMarkerAtRoot [compA] (by decide) (by decide)

/-- Path separator used when rendering a path for a command line. -/
def SEP : String := "/"

/-- str(path): rendering of a path for the openssl command line. -/
def pathStr (p : FPath) : String :=
  SEP ++ String.intercalate SEP p

/-- Status of one subprocess.run invocation: normal completion, a
CalledProcessError carrying the captured stderr (check=True and a non-zero
exit), or a FileNotFoundError (openssl not installed). -/
inductive PrimStatus where
  | ok : PrimStatus
  | err : Option String → PrimStatus
  | notFound : PrimStatus
deriving DecidableEq

/-- The external Key Generation Primitive (openssl reached through
subprocess.run): a call takes the command line and the current filesystem
and returns the possibly changed filesystem and a status.  Its behaviour is
a parameter of the whole development, so theorems quantify over every
possible behaviour of the external tool. -/
structure Primitive where
  run : List String → FS → FS × PrimStatus

/-- The command line of gen_secrets.py lines 74-80: generate the private
key in PKCS#8 format. -/
def genpkeyCmd (priv : FPath) : List String :=
  ["openssl", "genpkey", "-algorithm", "RSA", "-out", pathStr priv,
   "-pkeyopt", "rsa_keygen_bits:2048"]

/-- The command line of gen_secrets.py lines 85-91: extract the public key
from the private key. -/
def rsaPuboutCmd (priv pub : FPath) : List String :=
  ["openssl", "rsa", "-pubout", "-in", pathStr priv, "-out", pathStr pub]

/-- Precondition for output_dir.mkdir(parents=True, exist_ok=True) to
succeed: no ancestor of the directory (nor the directory itself) is an
existing file.  exist_ok=True means an already existing directory is not
an error, but a file occupying any component still raises OSError. -/
def mkdirOk (fs : FS) (p : FPath) : Bool :=
  p.inits.all fun q => (fs.files q).isNone

/-- Effect of output_dir.mkdir(parents=True, exist_ok=True): the directory
and all its ancestors become directories; no file is touched. -/
def mkdirParents (fs : FS) (p : FPath) : FS where
  files := fs.files
  dirs := fun q => fs.dirs q || q.isPrefixOf p

/-- gen_secrets.py generate_keys (lines 48-108).  Returns Except.error ()
when the mkdir call raises (it sits outside the try/except, so the
exception is uncaught); otherwise returns the new filesystem, the list of
primitive command lines invoked, and the boolean return value of the
Python function (True only when both openssl calls completed normally). -/
def generate_keys (prim : Primitive) (output_dir : FPath) (force : Bool)
    (fs : FS) : Except Unit (FS × List (List String) × Bool) :=
  let private_key_path := output_dir ++ [PRIVATE_KEY_NAME]
  let public_key_path := output_dir ++ [PUBLIC_KEY_NAME]
  if pathExists fs private_key_path && pathExists fs public_key_path && !force then
    .ok (fs, [], false)
  else if mkdirOk fs output_dir then
    let fs1 := mkdirParents fs output_dir
    let cmd1 := genpkeyCmd private_key_path
    match prim.run cmd1 fs1 with
    | (fs2, .ok) =>
      let cmd2 := rsaPuboutCmd private_key_path public_key_path
      match prim.run cmd2 fs2 with
      | (fs3, .ok) => .ok (fs3, [cmd1, cmd2], true)
      | (fs3, _) => .ok (fs3, [cmd1, cmd2], false)
    | (fs2, _) => .ok (fs2, [cmd1], false)
  else
    .error ()

/-- The spec-level ProvisioningOutcome of one location. -/
inductive Outcome where
  | Skipped : Outcome
  | Generated : Outcome
  | Failed : Outcome
deriving DecidableEq

/-- ProvisioningOutcome reconstructed from the observables of one
generate_keys run: Generated when the function returned True, Skipped when
it returned False without invoking the primitive (the both-files-exist
short circuit), Failed when it returned False after invoking the
primitive. -/
def outcomeOf (calls : List (List String)) (generated : Bool) : Outcome :=
  if generated then .Generated
  else if calls.isEmpty then .Skipped
  else .Failed

/-- C8: when both artifact files exist and force is false, generate_keys
returns without touching the filesystem at all: the state is unchanged, no
directory is created, the primitive is never invoked, and the outcome is
Skipped. -/
theorem C8_skip_path_frame (prim : Primitive) (output_dir : FPath) (fs : FS)
    (hpriv : pathExists fs (output_dir ++ [PRIVATE_KEY_NAME]) = true)
    (hpub : pathExists fs (output_dir ++ [PUBLIC_KEY_NAME]) = true) :
    generate_keys prim output_dir false fs = .ok (fs, [], false) ∧
    outcomeOf [] false = .Skipped := by
  constructor
  · simp [generate_keys, hpriv, hpub]
  · rfl

/-- Placeholder file contents used in concrete filesystems. -/
def KEYBYTES : String := "keybytes"

/-- A directory used by concrete scenarios. -/
def dirC : FPath := [compA]

/-- A filesystem where dirC already holds both artifact files. -/
def fsBothExist : FS where
  files := fun p =>
    if p = dirC ++ [PRIVATE_KEY_NAME] then some KEYBYTES
    else if p = dirC ++ [PUBLIC_KEY_NAME] then some KEYBYTES
    else none
  dirs := fun q => q.isPrefixOf dirC

/-- A primitive that is never available: every invocation raises
FileNotFoundError and leaves the filesystem unchanged. -/
def primUnavailable : Primitive where
  run := fun _ g => (g, .notFound)

/-- Witness for C8 at a concrete filesystem and the unavailable
primitive. -/
theorem C8_skip_path_frame_witness :
    generate_keys primUnavailable dirC false fsBothExist =
      .ok (fsBothExist, [], false) ∧
    outcomeOf [] false = .Skipped :=
  C8_skip_path_frame primUnavailable dirC fsBothExist (by decide) (by decide)

/-- C5: with force true, generate_keys never takes the existence short
circuit: even when both artifact files already exist it invokes the
primitive, first the private key generation and then the public key
derivation, and returns True (outcome Generated) when both invocations
succeed. -/
theorem C5_force_overwrite (prim : Primitive) (output_dir : FPath) (fs : FS)
    (hpriv : pathExists fs (output_dir ++ [PRIVATE_KEY_NAME]) = true)
    (hpub : pathExists fs (output_dir ++ [PUBLIC_KEY_NAME]) = true)
    (hmk : mkdirOk fs output_dir = true)
    (h1 : ∀ g : FS,
      (prim.run (genpkeyCmd (output_dir ++ [PRIVATE_KEY_NAME])) g).2 = .ok)
    (h2 : ∀ g : FS,
      (prim.run (rsaPuboutCmd (output_dir ++ [PRIVATE_KEY_NAME])
        (output_dir ++ [PUBLIC_KEY_NAME])) g).2 = .ok) :
    ∃ fs3 : FS,
      generate_keys prim output_dir true fs =
        .ok (fs3, [genpkeyCmd (output_dir ++ [PRIVATE_KEY_NAME]),
                   rsaPuboutCmd (output_dir ++ [PRIVATE_KEY_NAME])
                     (output_dir ++ [PUBLIC_KEY_NAME])], true) ∧
      outcomeOf [genpkeyCmd (output_dir ++ [PRIVATE_KEY_NAME]),
                 rsaPuboutCmd (output_dir ++ [PRIVATE_KEY_NAME])
                   (output_dir ++ [PUBLIC_KEY_NAME])] true = .Generated := by
  simp only [generate_keys, hmk]
  rcases hr1 : prim.run (genpkeyCmd (output_dir ++ [PRIVATE_KEY_NAME]))
      (mkdirParents fs output_dir) with ⟨g1f, g1s⟩
  have hs1 := h1 (mkdirParents fs output_dir)
  rw [hr1] at hs1
  simp at hs1
  subst hs1
  rcases hr2 : prim.run (rsaPuboutCmd (output_dir ++ [PRIVATE_KEY_NAME])
      (output_dir ++ [PUBLIC_KEY_NAME])) g1f with ⟨g2f, g2s⟩
  have hs2 := h2 g1f
  rw [hr2] at hs2
  simp at hs2
  subst hs2
  refine ⟨g2f, ?_, rfl⟩
  simp [hr1, hr2]

/-- A primitive that always reports success and leaves the filesystem
unchanged (it does not actually create any file). -/
def primLazyOk : Primitive where
  run := fun _ g => (g, .ok)

/-- Witness for C5: on the concrete filesystem that already has both
artifacts, with an always-succeeding primitive, generate_keys with force
returns True. -/
theorem C5_force_overwrite_witness :
    ∃ fs3 : FS,
      generate_keys primLazyOk dirC true fsBothExist =
        .ok (fs3, [genpkeyCmd (dirC ++ [PRIVATE_KEY_NAME]),
                   rsaPuboutCmd (dirC ++ [PRIVATE_KEY_NAME])
                     (dirC ++ [PUBLIC_KEY_NAME])], true) ∧
      outcomeOf [genpkeyCmd (dirC ++ [PRIVATE_KEY_NAME]),
                 rsaPuboutCmd (dirC ++ [PRIVATE_KEY_NAME])
                   (dirC ++ [PUBLIC_KEY_NAME])] true = .Generated :=
  C5_force_overwrite primLazyOk dirC fsBothExist (by decide) (by decide)
    (by decide) (fun g => rfl) (fun g => rfl)

/-- C9: the Boolean returned by generate_keys does not distinguish Skipped
from Failed.  On a filesystem where both artifacts exist the function skips
and returns False without invoking the primitive; on an empty filesystem
with the primitive unavailable it fails and also returns False, after
invoking the primitive once; the reconstructed outcomes differ. -/
theorem C9_return_value_ambiguity :
    generate_keys primUnavailable dirC false fsBothExist =
      .ok (fsBothExist, [], false) ∧
    generate_keys primUnavailable dirC false fsEmpty =
      .ok (mkdirParents fsEmpty dirC,
           [genpkeyCmd (dirC ++ [PRIVATE_KEY_NAME])], false) ∧
    outcomeOf [] false = .Skipped ∧
    outcomeOf [genpkeyCmd (dirC ++ [PRIVATE_KEY_NAME])] false = .Failed ∧
    Outcome.Skipped ≠ Outcome.Failed := by
  exact ⟨rfl, rfl, rfl, rfl, by decide⟩

/-- The for loop of main over KEY_LOCATIONS (gen_secrets.py lines 122-128):
process each location in order with generate_keys, threading the filesystem;
an uncaught exception from any iteration aborts the whole run.  Per
location it records the primitive command lines invoked and the Boolean
returned by generate_keys. -/
def runLocations (prim : Primitive) (root : FPath) (force : Bool) :
    List FPath → FS → Except Unit (FS × List (List (List String) × Bool))
  | [], fs => .ok (fs, [])
  | loc :: rest, fs =>
    match generate_keys prim (root ++ loc) force fs with
    | .error e => .error e
    | .ok (fs1, calls, gen) =>
      match runLocations prim root force rest fs1 with
      | .error e => .error e
      | .ok (fs2, results) => .ok (fs2, (calls, gen) :: results)

/-- Both artifact files of one location directory are present (the
re-check of gen_secrets.py lines 140-144). -/
def bothExist (fs : FS) (dir : FPath) : Bool :=
  pathExists fs (dir ++ [PRIVATE_KEY_NAME]) && pathExists fs (dir ++ [PUBLIC_KEY_NAME])

/-- The locations flagged by the completion check of main (each one prints
a WARNING line and clears all_present). -/
def missing_locations (fs : FS) (root : FPath) : List FPath :=
  KEY_LOCATIONS.filter fun loc => !bothExist fs (root ++ loc)

/-- The all_present flag computed by the completion check of main
(gen_secrets.py lines 137-144). -/
def all_present (fs : FS) (root : FPath) : Bool :=
  KEY_LOCATIONS.all fun loc => bothExist fs (root ++ loc)

/-- gen_secrets.py main (lines 111-151): locate the root once, provision
every configured location, then re-stat every location and return exit
code 0 when all artifacts are present and 1 otherwise.  The returned list
gives the per-location ProvisioningOutcome reconstructed from the
observables of each generate_keys run. -/
def main (prim : Primitive) (scriptDir : FPath) (force : Bool) (fs : FS) :
    Except Unit (FS × List Outcome × Nat) :=
  let root := find_project_root fs scriptDir
  match runLocations prim root force KEY_LOCATIONS fs with
  | .error e => .error e
  | .ok (fs1, results) =>
    .ok (fs1, results.map (fun r => outcomeOf r.1 r.2),
         if all_present fs1 root then 0 else 1)

/-- The exit code of a completed run is computed from the final
re-check alone. -/
theorem main_code_eq (prim : Primitive) (scriptDir : FPath) (force : Bool)
    (fs fs1 : FS) (outs : List Outcome) (code : Nat)
    (h : main prim scriptDir force fs = .ok (fs1, outs, code)) :
    code = if all_present fs1 (find_project_root fs scriptDir) then 0 else 1 := by
  simp only [main] at h
  rcases hr : runLocations prim (find_project_root fs scriptDir) force
      KEY_LOCATIONS fs with e | r
  · rw [hr] at h
    simp at h
  · rw [hr] at h
    obtain ⟨f, res⟩ := r
    simp at h
    obtain ⟨h1, h2, h3⟩ := h
    subst h1
    exact h3.symm

/-- C1: for a completed run, the exit code is 0 exactly when every
configured location has both artifact files in the final filesystem state,
and 1 otherwise; it is a function of the final existence re-check only. -/
theorem C1_exit_code_contract (prim : Primitive) (scriptDir : FPath)
    (force : Bool) (fs fs1 : FS) (outs : List Outcome) (code : Nat)
    (h : main prim scriptDir force fs = .ok (fs1, outs, code)) :
    code = (if all_present fs1 (find_project_root fs scriptDir) then 0 else 1) ∧
    (code = 0 ↔ all_present fs1 (find_project_root fs scriptDir) = true) := by
  have hc := main_code_eq prim scriptDir force fs fs1 outs code h
  refine ⟨hc, ?_⟩
  by_cases hap : all_present fs1 (find_project_root fs scriptDir) = true
  · simp [hap] at hc
    simp [hap, hc]
  · simp [hap] at hc
    simp [hap, hc]

/-- The four artifact paths of a run rooted at the filesystem root. -/
def keyArtifactPaths : List FPath :=
  [loc0 ++ [PRIVATE_KEY_NAME], loc0 ++ [PUBLIC_KEY_NAME],
   loc1 ++ [PRIVATE_KEY_NAME], loc1 ++ [PUBLIC_KEY_NAME]]

/-- A filesystem in which both configured locations already hold both
artifact files, for a project root at []. -/
def fsProvisioned : FS where
  files := fun p => if p ∈ keyArtifactPaths then some KEYBYTES else none
  dirs := fun _ => false

/-- Witness for C1: on the fully provisioned filesystem the run completes
with exit code 0, matching the re-check. -/
theorem C1_exit_code_contract_witness :
    (0 = (if all_present fsProvisioned (find_project_root fsProvisioned []) then 0 else 1) ∧
    (0 = 0 ↔ all_present fsProvisioned (find_project_root fsProvisioned []) = true)) :=
  C1_exit_code_contract primUnavailable [] false fsProvisioned fsProvisioned
    [Outcome.Skipped, Outcome.Skipped] 0 rfl

/-- C2: the completion check trusts only the filesystem.  For any completed
run and any configured location whose public key file is absent from the
final state, that location is flagged as missing and the exit code is
non-zero, even when the per-location outcome for it was Generated. -/
theorem C2_verification_independence (prim : Primitive) (scriptDir : FPath)
    (force : Bool) (fs fs1 : FS) (outs : List Outcome) (code : Nat) (loc : FPath)
    (hmain : main prim scriptDir force fs = .ok (fs1, outs, code))
    (hloc : loc ∈ KEY_LOCATIONS)
    (hreported : ∃ i : Nat, KEY_LOCATIONS[i]? = some loc ∧
      outs[i]? = some Outcome.Generated)
    (hpub : pathExists fs1 (find_project_root fs scriptDir ++ loc ++ [PUBLIC_KEY_NAME]) = false) :
    loc ∈ missing_locations fs1 (find_project_root fs scriptDir) ∧ code ≠ 0 := by
  have hboth : bothExist fs1 (find_project_root fs scriptDir ++ loc) = false := by
    simp only [bothExist, hpub, Bool.and_false]
  have hnb : (!bothExist fs1 (find_project_root fs scriptDir ++ loc)) = true := by
    rw [hboth]
    rfl
  constructor
  · unfold missing_locations
    exact List.mem_filter.mpr ⟨hloc, hnb⟩
  · have hap : all_present fs1 (find_project_root fs scriptDir) = false := by
      cases hx : all_present fs1 (find_project_root fs scriptDir) with
      | false => rfl
      | true =>
        exfalso
        rw [all_present, List.all_eq_true] at hx
        have h2 : bothExist fs1 (find_project_root fs scriptDir ++ loc) = true :=
          hx loc hloc
        rw [hboth] at h2
        exact Bool.false_ne_true h2
    have hc := main_code_eq prim scriptDir force fs fs1 outs code hmain
    rw [hap] at hc
    simp at hc
    omega

/-- Record a file at a path, leaving everything else unchanged. -/
def setFile (fs : FS) (p : FPath) (c : String) : FS where
  files := fun q => if q = p then some c else fs.files q
  dirs := fs.dirs

/-- A dishonest primitive: it reports success on every call and writes the
private key file a genpkey command asks for, but never writes any public
key file. -/
def primDishonest : Primitive where
  run := fun cmd g =>
    if cmd = genpkeyCmd (loc0 ++ [PRIVATE_KEY_NAME]) then
      (setFile g (loc0 ++ [PRIVATE_KEY_NAME]) KEYBYTES, .ok)
    else if cmd = genpkeyCmd (loc1 ++ [PRIVATE_KEY_NAME]) then
      (setFile g (loc1 ++ [PRIVATE_KEY_NAME]) KEYBYTES, .ok)
    else (g, .ok)

/-- The run of main with the dishonest primitive on an empty filesystem. -/
def mainDishonest : Except Unit (FS × List Outcome × Nat) :=
  main primDishonest [] false fsEmpty

/-- Final filesystem of the dishonest run. -/
def fsDishonest : FS :=
  match mainDishonest with
  | .ok r => r.1
  | .error _ => fsEmpty

/-- Outcome list of the dishonest run. -/
def outsDishonest : List Outcome :=
  match mainDishonest with
  | .ok r => r.2.1
  | .error _ => []

/-- Exit code of the dishonest run. -/
def codeDishonest : Nat :=
  match mainDishonest with
  | .ok r => r.2.2
  | .error _ => 0

/-- Witness for C2: the dishonest primitive makes every outcome Generated,
yet the run is flagged and exits non-zero because the public key files are
absent. -/
theorem C2_verification_independence_witness :
    loc0 ∈ missing_locations fsDishonest (find_project_root fsEmpty []) ∧
    codeDishonest ≠ 0 :=
  C2_verification_independence primDishonest [] false fsEmpty fsDishonest
    outsDishonest codeDishonest loc0 rfl (by decide) ⟨0, rfl, rfl⟩ (by decide)

/-- When every location already has both artifacts, the provisioning loop
skips every location and returns the filesystem unchanged. -/
theorem runLocations_all_skip (prim : Primitive) (root : FPath) :
    ∀ (locs : List FPath) (fs : FS),
      (∀ loc ∈ locs, bothExist fs (root ++ loc) = true) →
      runLocations prim root false locs fs =
        .ok (fs, locs.map fun _ => ([], false)) := by
  intro locs
  induction locs with
  | nil => intro fs _; rfl
  | cons loc rest ih =>
    intro fs h
    have hloc := h loc (by simp)
    rw [bothExist, Bool.and_eq_true] at hloc
    have hrest : ∀ l ∈ rest, bothExist fs (root ++ l) = true := by
      intro l hl
      exact h l (by simp [hl])
    simp only [runLocations, generate_keys, hloc.1, hloc.2, Bool.not_false,
      Bool.and_self, Bool.and_true, if_true, ih fs hrest]
    rfl

/-- A run over an already fully provisioned state completes, changes
nothing and reports Skipped everywhere with exit code 0. -/
theorem main_all_skip (prim : Primitive) (scriptDir : FPath) (fs : FS)
    (h : all_present fs (find_project_root fs scriptDir) = true) :
    main prim scriptDir false fs =
      .ok (fs, KEY_LOCATIONS.map fun _ => Outcome.Skipped, 0) := by
  have hall : ∀ loc ∈ KEY_LOCATIONS,
      bothExist fs (find_project_root fs scriptDir ++ loc) = true := by
    rw [all_present, List.all_eq_true] at h
    intro loc hl
    exact h loc hl
  simp only [main]
  rw [runLocations_all_skip prim (find_project_root fs scriptDir)
    KEY_LOCATIONS fs hall]
  simp [h, List.map_map, outcomeOf]

/-- C3: idempotence.  First, on any state where every configured location
already has both artifact files, a run with force false reports Skipped for
every location, leaves the filesystem (existence and contents) completely
unchanged, and exits 0.  Second, running the workflow twice with force
false: when the first run completes with exit code 0 and does not move the
project root, the second run reports Skipped everywhere and changes
nothing. -/
theorem C3_idempotence (prim : Primitive) (scriptDir : FPath) (fs : FS) :
    (all_present fs (find_project_root fs scriptDir) = true →
      main prim scriptDir false fs =
        .ok (fs, KEY_LOCATIONS.map fun _ => Outcome.Skipped, 0)) ∧
    (∀ (fs1 : FS) (outs1 : List Outcome),
      main prim scriptDir false fs = .ok (fs1, outs1, 0) →
      find_project_root fs1 scriptDir = find_project_root fs scriptDir →
      main prim scriptDir false fs1 =
        .ok (fs1, KEY_LOCATIONS.map fun _ => Outcome.Skipped, 0)) := by
  constructor
  · intro h
    exact main_all_skip prim scriptDir fs h
  · intro fs1 outs1 hrun hstable
    have hc := main_code_eq prim scriptDir false fs fs1 outs1 0 hrun
    have hap : all_present fs1 (find_project_root fs scriptDir) = true := by
      by_cases hx : all_present fs1 (find_project_root fs scriptDir) = true
      · exact hx
      · simp [hx] at hc
    apply main_all_skip
    rw [hstable]
    exact hap

/-- Witness for C3: both parts instantiated on the fully provisioned
filesystem, where the first run exits 0 and the second run skips both
locations. -/
theorem C3_idempotence_witness :
    main primUnavailable [] false fsProvisioned =
      .ok (fsProvisioned, KEY_LOCATIONS.map fun _ => Outcome.Skipped, 0) ∧
    main primUnavailable [] false fsProvisioned =
      .ok (fsProvisioned, KEY_LOCATIONS.map fun _ => Outcome.Skipped, 0) :=
  ⟨(C3_idempotence primUnavailable [] fsProvisioned).1 (by decide),
   (C3_idempotence primUnavailable [] fsProvisioned).2 fsProvisioned
     (KEY_LOCATIONS.map fun _ => Outcome.Skipped) rfl rfl⟩

/-- Prepending a common directory to two paths does not change whether one
is a prefix of the other. -/
theorem isPrefixOf_append_cancel {α : Type} [BEq α] [LawfulBEq α]
    (r a b : List α) : (r ++ a).isPrefixOf (r ++ b) = a.isPrefixOf b := by
  induction r with
  | nil => rfl
  | cons x r ih => simp [List.isPrefixOf, ih]

/-- Prepending a common directory to two paths does not change whether one
is an ancestor (an init) of the other. -/
theorem append_mem_inits {α : Type} (r a b : List α) :
    (r ++ a) ∈ (r ++ b).inits ↔ a ∈ b.inits := by
  induction r with
  | nil => simp
  | cons x r ih =>
    constructor
    · intro h
      simp only [List.cons_append, List.inits_cons, List.mem_cons,
        List.mem_map] at h
      rcases h with h | ⟨y, hy, hxy⟩
      · exact absurd h (by simp)
      · have hya : y = r ++ a := by
          have h2 := congrArg List.tail hxy
          simpa using h2
        rw [hya] at hy
        exact ih.mp hy
    · intro h
      simp only [List.cons_append, List.inits_cons, List.mem_cons,
        List.mem_map]
      right
      exact ⟨r ++ a, ih.mpr h, rfl⟩

/-- Writing a file outside the ancestor chain of a directory does not
change whether that directory can be created. -/
theorem mkdirOk_setFile (g : FS) (p : FPath) (c : String) (d : FPath)
    (hp : p ∉ d.inits) : mkdirOk (setFile g p c) d = mkdirOk g d := by
  unfold mkdirOk
  rw [Bool.eq_iff_iff, List.all_eq_true, List.all_eq_true]
  constructor
  · intro h q hq
    have hqp : ¬(q = p) := fun he => hp (he ▸ hq)
    have h2 := h q hq
    simpa [setFile, hqp] using h2
  · intro h q hq
    have hqp : ¬(q = p) := fun he => hp (he ▸ hq)
    simpa [setFile, hqp] using h q hq

/-- generate_keys when the private key file is absent, the directory can be
created, and the first primitive invocation fails leaving the state
unchanged: the function returns False after one invocation and the only
filesystem change is the directory creation. -/
theorem generate_keys_fail_first (prim : Primitive) (dir : FPath)
    (force : Bool) (fs : FS) (st : PrimStatus)
    (hpriv : pathExists fs (dir ++ [PRIVATE_KEY_NAME]) = false)
    (hmk : mkdirOk fs dir = true)
    (hst : st ≠ .ok)
    (hp : ∀ g : FS, prim.run (genpkeyCmd (dir ++ [PRIVATE_KEY_NAME])) g = (g, st)) :
    generate_keys prim dir force fs =
      .ok (mkdirParents fs dir, [genpkeyCmd (dir ++ [PRIVATE_KEY_NAME])], false) := by
  cases st with
  | ok => exact absurd rfl hst
  | err e =>
    simp only [generate_keys, hpriv, Bool.false_and, Bool.and_self,
      Bool.false_eq_true, if_false, hmk, if_true, hp (mkdirParents fs dir)]
  | notFound =>
    simp only [generate_keys, hpriv, Bool.false_and, Bool.and_self,
      Bool.false_eq_true, if_false, hmk, if_true, hp (mkdirParents fs dir)]

/-- generate_keys when the private key file is absent, the directory can be
created, and both primitive invocations succeed, each writing exactly its
output file: the function returns True after the two invocations. -/
theorem generate_keys_succ (prim : Primitive) (dir : FPath) (force : Bool)
    (fs : FS) (kpriv kpub : String)
    (hpriv : pathExists fs (dir ++ [PRIVATE_KEY_NAME]) = false)
    (hmk : mkdirOk fs dir = true)
    (h1 : ∀ g : FS, prim.run (genpkeyCmd (dir ++ [PRIVATE_KEY_NAME])) g =
      (setFile g (dir ++ [PRIVATE_KEY_NAME]) kpriv, .ok))
    (h2 : ∀ g : FS, prim.run (rsaPuboutCmd (dir ++ [PRIVATE_KEY_NAME])
        (dir ++ [PUBLIC_KEY_NAME])) g =
      (setFile g (dir ++ [PUBLIC_KEY_NAME]) kpub, .ok)) :
    generate_keys prim dir force fs =
      .ok (setFile (setFile (mkdirParents fs dir)
             (dir ++ [PRIVATE_KEY_NAME]) kpriv)
             (dir ++ [PUBLIC_KEY_NAME]) kpub,
           [genpkeyCmd (dir ++ [PRIVATE_KEY_NAME]),
            rsaPuboutCmd (dir ++ [PRIVATE_KEY_NAME]) (dir ++ [PUBLIC_KEY_NAME])],
           true) := by
  simp only [generate_keys, hpriv, Bool.false_and, Bool.and_self,
    Bool.false_eq_true, if_false, hmk, if_true, h1, h2]

/-- Appending to a common directory is injective, read as inequality. -/
theorem append_ne_append (r u v : FPath) (h : ¬ u = v) :
    ¬ (r ++ u = r ++ v) :=
  fun he => h (List.append_cancel_left he)

/-- A path outside the ancestors of a directory stays outside after both
are placed under a common directory. -/
theorem append_notin_inits (r u v : FPath) (h : ¬ u ∈ v.inits) :
    ¬ (r ++ u ∈ (r ++ v).inits) :=
  fun hm => h ((append_mem_inits r u v).mp hm)

/-- C4: partial failure isolation over the two configured locations.  With
force false and neither location already provisioned, if the primitive
fails for one location (any non-ok status, state unchanged) and succeeds
for the other (writing exactly the requested files), the run still
completes, the other location ends up with both artifact files on disk,
and the per-location report is Failed for the failing location and
Generated for the other - in both orders. -/
theorem C4_partial_failure_isolation (prim : Primitive) (scriptDir : FPath)
    (fs : FS) (kpriv kpub : String) (st : PrimStatus) (root : FPath)
    (hroot : root = find_project_root fs scriptDir)
    (hst : st ≠ PrimStatus.ok) :
    ((∀ g : FS, prim.run (genpkeyCmd (root ++ loc0 ++ [PRIVATE_KEY_NAME])) g = (g, st)) →
     (∀ g : FS, prim.run (genpkeyCmd (root ++ loc1 ++ [PRIVATE_KEY_NAME])) g =
       (setFile g (root ++ loc1 ++ [PRIVATE_KEY_NAME]) kpriv, .ok)) →
     (∀ g : FS, prim.run (rsaPuboutCmd (root ++ loc1 ++ [PRIVATE_KEY_NAME])
         (root ++ loc1 ++ [PUBLIC_KEY_NAME])) g =
       (setFile g (root ++ loc1 ++ [PUBLIC_KEY_NAME]) kpub, .ok)) →
     pathExists fs (root ++ loc0 ++ [PRIVATE_KEY_NAME]) = false →
     pathExists fs (root ++ loc1 ++ [PRIVATE_KEY_NAME]) = false →
     mkdirOk fs (root ++ loc0) = true →
     mkdirOk fs (root ++ loc1) = true →
     (let fsF := setFile (setFile
         (mkdirParents (mkdirParents fs (root ++ loc0)) (root ++ loc1))
         (root ++ loc1 ++ [PRIVATE_KEY_NAME]) kpriv)
         (root ++ loc1 ++ [PUBLIC_KEY_NAME]) kpub
      main prim scriptDir false fs =
        .ok (fsF, [Outcome.Failed, Outcome.Generated],
             if all_present fsF root then 0 else 1) ∧
      pathExists fsF (root ++ loc1 ++ [PRIVATE_KEY_NAME]) = true ∧
      pathExists fsF (root ++ loc1 ++ [PUBLIC_KEY_NAME]) = true)) ∧
    ((∀ g : FS, prim.run (genpkeyCmd (root ++ loc1 ++ [PRIVATE_KEY_NAME])) g = (g, st)) →
     (∀ g : FS, prim.run (genpkeyCmd (root ++ loc0 ++ [PRIVATE_KEY_NAME])) g =
       (setFile g (root ++ loc0 ++ [PRIVATE_KEY_NAME]) kpriv, .ok)) →
     (∀ g : FS, prim.run (rsaPuboutCmd (root ++ loc0 ++ [PRIVATE_KEY_NAME])
         (root ++ loc0 ++ [PUBLIC_KEY_NAME])) g =
       (setFile g (root ++ loc0 ++ [PUBLIC_KEY_NAME]) kpub, .ok)) →
     pathExists fs (root ++ loc0 ++ [PRIVATE_KEY_NAME]) = false →
     pathExists fs (root ++ loc1 ++ [PRIVATE_KEY_NAME]) = false →
     mkdirOk fs (root ++ loc0) = true →
     mkdirOk fs (root ++ loc1) = true →
     (let fsG := mkdirParents (setFile (setFile (mkdirParents fs (root ++ loc0))
         (root ++ loc0 ++ [PRIVATE_KEY_NAME]) kpriv)
         (root ++ loc0 ++ [PUBLIC_KEY_NAME]) kpub) (root ++ loc1)
      main prim scriptDir false fs =
        .ok (fsG, [Outcome.Generated, Outcome.Failed],
             if all_present fsG root then 0 else 1) ∧
      pathExists fsG (root ++ loc0 ++ [PRIVATE_KEY_NAME]) = true ∧
      pathExists fsG (root ++ loc0 ++ [PUBLIC_KEY_NAME]) = true)) := by
  subst hroot
  constructor
  · intro hA hB1 hB2 hne0 hne1 hmk0 hmk1
    have h1 := generate_keys_fail_first prim
      (find_project_root fs scriptDir ++ loc0) false fs st hne0 hmk0 hst hA
    have hpre1 : (find_project_root fs scriptDir ++ loc1 ++ [PRIVATE_KEY_NAME]).isPrefixOf
        (find_project_root fs scriptDir ++ loc0) = false := by
      rw [List.append_assoc, isPrefixOf_append_cancel]
      decide
    rw [pathExists, Bool.or_eq_false_iff] at hne1
    have hne1m : pathExists (mkdirParents fs (find_project_root fs scriptDir ++ loc0))
        (find_project_root fs scriptDir ++ loc1 ++ [PRIVATE_KEY_NAME]) = false := by
      simp only [pathExists, mkdirParents, hne1.1, hne1.2, hpre1, Bool.or_self,
        Bool.or_false, Bool.false_or]
    have hmk1m : mkdirOk (mkdirParents fs (find_project_root fs scriptDir ++ loc0))
        (find_project_root fs scriptDir ++ loc1) = true := hmk1
    have h2 := generate_keys_succ prim
      (find_project_root fs scriptDir ++ loc1) false
      (mkdirParents fs (find_project_root fs scriptDir ++ loc0)) kpriv kpub
      hne1m hmk1m hB1 hB2
    have hrun : runLocations prim (find_project_root fs scriptDir) false
        KEY_LOCATIONS fs =
        .ok (setFile (setFile
              (mkdirParents (mkdirParents fs (find_project_root fs scriptDir ++ loc0))
                (find_project_root fs scriptDir ++ loc1))
              (find_project_root fs scriptDir ++ loc1 ++ [PRIVATE_KEY_NAME]) kpriv)
              (find_project_root fs scriptDir ++ loc1 ++ [PUBLIC_KEY_NAME]) kpub,
             [([genpkeyCmd (find_project_root fs scriptDir ++ loc0 ++ [PRIVATE_KEY_NAME])], false),
              ([genpkeyCmd (find_project_root fs scriptDir ++ loc1 ++ [PRIVATE_KEY_NAME]),
                rsaPuboutCmd (find_project_root fs scriptDir ++ loc1 ++ [PRIVATE_KEY_NAME])
                  (find_project_root fs scriptDir ++ loc1 ++ [PUBLIC_KEY_NAME])], true)]) := by
      simp only [KEY_LOCATIONS, runLocations, h1, h2]
    refine ⟨?_, ?_, ?_⟩
    · simp only [main, hrun]
      simp [outcomeOf]
    · have hpq := append_ne_append (find_project_root fs scriptDir ++ loc1)
        [PRIVATE_KEY_NAME] [PUBLIC_KEY_NAME] (by decide)
      simp only [pathExists, setFile, hpq, if_false, eq_self_iff_true, if_true,
        Option.isSome_some, Bool.true_or]
    · simp only [pathExists, setFile, eq_self_iff_true, if_true,
        Option.isSome_some, Bool.true_or]
  · intro hA hB1 hB2 hne0 hne1 hmk0 hmk1
    have h1 := generate_keys_succ prim
      (find_project_root fs scriptDir ++ loc0) false fs kpriv kpub
      hne0 hmk0 hB1 hB2
    have hpre1 : (find_project_root fs scriptDir ++ loc1 ++ [PRIVATE_KEY_NAME]).isPrefixOf
        (find_project_root fs scriptDir ++ loc0) = false := by
      rw [List.append_assoc, isPrefixOf_append_cancel]
      decide
    have hq0 : ¬ ((find_project_root fs scriptDir ++ loc1 ++ [PRIVATE_KEY_NAME]) =
        (find_project_root fs scriptDir ++ loc0 ++ [PUBLIC_KEY_NAME])) := by
      rw [List.append_assoc, List.append_assoc]
      exact append_ne_append _ _ _ (by decide)
    have hp0 : ¬ ((find_project_root fs scriptDir ++ loc1 ++ [PRIVATE_KEY_NAME]) =
        (find_project_root fs scriptDir ++ loc0 ++ [PRIVATE_KEY_NAME])) := by
      rw [List.append_assoc, List.append_assoc]
      exact append_ne_append _ _ _ (by decide)
    rw [pathExists, Bool.or_eq_false_iff] at hne1
    have hne1m : pathExists (setFile (setFile
        (mkdirParents fs (find_project_root fs scriptDir ++ loc0))
        (find_project_root fs scriptDir ++ loc0 ++ [PRIVATE_KEY_NAME]) kpriv)
        (find_project_root fs scriptDir ++ loc0 ++ [PUBLIC_KEY_NAME]) kpub)
        (find_project_root fs scriptDir ++ loc1 ++ [PRIVATE_KEY_NAME]) = false := by
      simp only [pathExists, setFile, mkdirParents, hq0, hp0, if_false,
        hne1.1, hne1.2, hpre1, Bool.or_self, Bool.or_false, Bool.false_or]
    have hq0i : ¬ ((find_project_root fs scriptDir ++ loc0 ++ [PUBLIC_KEY_NAME]) ∈
        (find_project_root fs scriptDir ++ loc1).inits) := by
      rw [List.append_assoc]
      exact append_notin_inits _ _ _ (by decide)
    have hp0i : ¬ ((find_project_root fs scriptDir ++ loc0 ++ [PRIVATE_KEY_NAME]) ∈
        (find_project_root fs scriptDir ++ loc1).inits) := by
      rw [List.append_assoc]
      exact append_notin_inits _ _ _ (by decide)
    have hmk1m : mkdirOk (setFile (setFile
        (mkdirParents fs (find_project_root fs scriptDir ++ loc0))
        (find_project_root fs scriptDir ++ loc0 ++ [PRIVATE_KEY_NAME]) kpriv)
        (find_project_root fs scriptDir ++ loc0 ++ [PUBLIC_KEY_NAME]) kpub)
        (find_project_root fs scriptDir ++ loc1) = true := by
      rw [mkdirOk_setFile _ _ _ _ hq0i, mkdirOk_setFile _ _ _ _ hp0i]
      exact hmk1
    have h2 := generate_keys_fail_first prim
      (find_project_root fs scriptDir ++ loc1) false
      (setFile (setFile (mkdirParents fs (find_project_root fs scriptDir ++ loc0))
        (find_project_root fs scriptDir ++ loc0 ++ [PRIVATE_KEY_NAME]) kpriv)
        (find_project_root fs scriptDir ++ loc0 ++ [PUBLIC_KEY_NAME]) kpub)
      st hne1m hmk1m hst hA
    have hrun : runLocations prim (find_project_root fs scriptDir) false
        KEY_LOCATIONS fs =
        .ok (mkdirParents (setFile (setFile
              (mkdirParents fs (find_project_root fs scriptDir ++ loc0))
              (find_project_root fs scriptDir ++ loc0 ++ [PRIVATE_KEY_NAME]) kpriv)
              (find_project_root fs scriptDir ++ loc0 ++ [PUBLIC_KEY_NAME]) kpub)
              (find_project_root fs scriptDir ++ loc1),
             [([genpkeyCmd (find_project_root fs scriptDir ++ loc0 ++ [PRIVATE_KEY_NAME]),
                rsaPuboutCmd (find_project_root fs scriptDir ++ loc0 ++ [PRIVATE_KEY_NAME])
                  (find_project_root fs scriptDir ++ loc0 ++ [PUBLIC_KEY_NAME])], true),
              ([genpkeyCmd (find_project_root fs scriptDir ++ loc1 ++ [PRIVATE_KEY_NAME])], false)]) := by
      simp only [KEY_LOCATIONS, runLocations, h1, h2]
    refine ⟨?_, ?_, ?_⟩
    · simp only [main, hrun]
      simp [outcomeOf]
    · have hpq := append_ne_append (find_project_root fs scriptDir ++ loc0)
        [PRIVATE_KEY_NAME] [PUBLIC_KEY_NAME] (by decide)
      simp only [pathExists, setFile, mkdirParents, hpq, if_false,
        eq_self_iff_true, if_true, Option.isSome_some, Bool.true_or]
    · simp only [pathExists, setFile, mkdirParents, eq_self_iff_true, if_true,
        Option.isSome_some, Bool.true_or]

/-- A primitive that raises FileNotFoundError for the first location and
succeeds for the second, writing exactly the requested files. -/
def primFailLoc0 : Primitive where
  run := fun cmd g =>
    if cmd = genpkeyCmd (loc0 ++ [PRIVATE_KEY_NAME]) then (g, PrimStatus.notFound)
    else if cmd = genpkeyCmd (loc1 ++ [PRIVATE_KEY_NAME]) then
      (setFile g (loc1 ++ [PRIVATE_KEY_NAME]) KEYBYTES, PrimStatus.ok)
    else if cmd = rsaPuboutCmd (loc1 ++ [PRIVATE_KEY_NAME]) (loc1 ++ [PUBLIC_KEY_NAME]) then
      (setFile g (loc1 ++ [PUBLIC_KEY_NAME]) KEYBYTES, PrimStatus.ok)
    else (g, PrimStatus.notFound)

/-- A primitive that succeeds for the first location, writing exactly the
requested files, and raises FileNotFoundError for the second. -/
def primFailLoc1 : Primitive where
  run := fun cmd g =>
    if cmd = genpkeyCmd (loc0 ++ [PRIVATE_KEY_NAME]) then
      (setFile g (loc0 ++ [PRIVATE_KEY_NAME]) KEYBYTES, PrimStatus.ok)
    else if cmd = rsaPuboutCmd (loc0 ++ [PRIVATE_KEY_NAME]) (loc0 ++ [PUBLIC_KEY_NAME]) then
      (setFile g (loc0 ++ [PUBLIC_KEY_NAME]) KEYBYTES, PrimStatus.ok)
    else (g, PrimStatus.notFound)

/-- Witness for C4: both orders instantiated on the empty filesystem with
root [], with the concrete failing/succeeding primitives. -/
theorem C4_partial_failure_isolation_witness :
    (let fsF := setFile (setFile
        (mkdirParents (mkdirParents fsEmpty ([] ++ loc0)) ([] ++ loc1))
        ([] ++ loc1 ++ [PRIVATE_KEY_NAME]) KEYBYTES)
        ([] ++ loc1 ++ [PUBLIC_KEY_NAME]) KEYBYTES
     main primFailLoc0 [] false fsEmpty =
       .ok (fsF, [Outcome.Failed, Outcome.Generated],
            if all_present fsF [] then 0 else 1) ∧
     pathExists fsF ([] ++ loc1 ++ [PRIVATE_KEY_NAME]) = true ∧
     pathExists fsF ([] ++ loc1 ++ [PUBLIC_KEY_NAME]) = true) ∧
    (let fsG := mkdirParents (setFile (setFile (mkdirParents fsEmpty ([] ++ loc0))
        ([] ++ loc0 ++ [PRIVATE_KEY_NAME]) KEYBYTES)
        ([] ++ loc0 ++ [PUBLIC_KEY_NAME]) KEYBYTES) ([] ++ loc1)
     main primFailLoc1 [] false fsEmpty =
       .ok (fsG, [Outcome.Generated, Outcome.Failed],
            if all_present fsG [] then 0 else 1) ∧
     pathExists fsG ([] ++ loc0 ++ [PRIVATE_KEY_NAME]) = true ∧
     pathExists fsG ([] ++ loc0 ++ [PUBLIC_KEY_NAME]) = true) :=
  ⟨(C4_partial_failure_isolation primFailLoc0 [] fsEmpty KEYBYTES KEYBYTES
      PrimStatus.notFound [] rfl (by decide)).1
      (fun g => rfl) (fun g => rfl) (fun g => rfl) rfl rfl (by decide) (by decide),
   (C4_partial_failure_isolation primFailLoc1 [] fsEmpty KEYBYTES KEYBYTES
      PrimStatus.notFound [] rfl (by decide)).2
      (fun g => rfl) (fun g => rfl) (fun g => rfl) rfl rfl (by decide) (by decide)⟩

/-- A filesystem in which an ordinary file occupies the path component
thunder, the first component of every configured location. -/
def fsFileAtThunder : FS where
  files := fun p => if p = loc0.take 1 then some KEYBYTES else none
  dirs := fun _ => false

/-- Counterexample for C7: output_dir.mkdir sits outside the try/except of
generate_keys, so when a file occupies a path component of a location
directory the OSError is uncaught (modelled as Except.error) and main does
not run to completion with an exit code. -/
theorem C7_uncaught_exception_counterexample :
    main primUnavailable [] false fsFileAtThunder = .error () := rfl

/-- Whether an Except value is a normal result rather than an uncaught
exception. -/
def isOkE {α : Type} : Except Unit α → Bool
  | .ok _ => true
  | .error _ => false

/-- When the directory creation precondition holds, generate_keys returns
normally for every behaviour of the primitive. -/
theorem generate_keys_ok (prim : Primitive) (dir : FPath) (force : Bool)
    (fs : FS) (hmk : mkdirOk fs dir = true) :
    ∃ r, generate_keys prim dir force fs = .ok r := by
  obtain ⟨⟨g1, s1⟩, hr1⟩ : ∃ p, prim.run (genpkeyCmd (dir ++ [PRIVATE_KEY_NAME]))
      (mkdirParents fs dir) = p := ⟨_, rfl⟩
  obtain ⟨⟨g2, s2⟩, hr2⟩ : ∃ p, prim.run (rsaPuboutCmd (dir ++ [PRIVATE_KEY_NAME])
      (dir ++ [PUBLIC_KEY_NAME])) g1 = p := ⟨_, rfl⟩
  cases hskip : (pathExists fs (dir ++ [PRIVATE_KEY_NAME]) &&
      pathExists fs (dir ++ [PUBLIC_KEY_NAME]) && !force) with
  | true =>
    exact ⟨_, by simp only [generate_keys, hskip, eq_self_iff_true, if_true]; rfl⟩
  | false =>
    cases s1 with
    | ok =>
      cases s2 with
      | ok =>
        exact ⟨_, by simp only [generate_keys, hskip, Bool.false_eq_true,
          if_false, hmk, eq_self_iff_true, if_true, hr1, hr2]; rfl⟩
      | err e =>
        exact ⟨_, by simp only [generate_keys, hskip, Bool.false_eq_true,
          if_false, hmk, eq_self_iff_true, if_true, hr1, hr2]; rfl⟩
      | notFound =>
        exact ⟨_, by simp only [generate_keys, hskip, Bool.false_eq_true,
          if_false, hmk, eq_self_iff_true, if_true, hr1, hr2]; rfl⟩
    | err e =>
      exact ⟨_, by simp only [generate_keys, hskip, Bool.false_eq_true,
        if_false, hmk, eq_self_iff_true, if_true, hr1]; rfl⟩
    | notFound =>
      exact ⟨_, by simp only [generate_keys, hskip, Bool.false_eq_true,
        if_false, hmk, eq_self_iff_true, if_true, hr1]; rfl⟩

/-- Any property of the filesystem preserved by directory creation and by
every primitive invocation is preserved by a completed generate_keys. -/
theorem generate_keys_preserves (prim : Primitive) (dir : FPath)
    (force : Bool) (fs fs1 : FS) (calls : List (List String)) (b : Bool)
    (P : FS → Prop) (hP : P fs)
    (hmkP : ∀ (g : FS) (d : FPath), P g → P (mkdirParents g d))
    (hpres : ∀ (cmd : List String) (g : FS), P g → P (prim.run cmd g).1)
    (h : generate_keys prim dir force fs = .ok (fs1, calls, b)) : P fs1 := by
  obtain ⟨⟨g1, s1⟩, hr1⟩ : ∃ p, prim.run (genpkeyCmd (dir ++ [PRIVATE_KEY_NAME]))
      (mkdirParents fs dir) = p := ⟨_, rfl⟩
  obtain ⟨⟨g2, s2⟩, hr2⟩ : ∃ p, prim.run (rsaPuboutCmd (dir ++ [PRIVATE_KEY_NAME])
      (dir ++ [PUBLIC_KEY_NAME])) g1 = p := ⟨_, rfl⟩
  have hg1 : P g1 := by
    have h2 := hpres (genpkeyCmd (dir ++ [PRIVATE_KEY_NAME]))
      (mkdirParents fs dir) (hmkP fs dir hP)
    rw [hr1] at h2
    exact h2
  have hg2 : P g2 := by
    have h2 := hpres (rsaPuboutCmd (dir ++ [PRIVATE_KEY_NAME])
      (dir ++ [PUBLIC_KEY_NAME])) g1 hg1
    rw [hr2] at h2
    exact h2
  cases hskip : (pathExists fs (dir ++ [PRIVATE_KEY_NAME]) &&
      pathExists fs (dir ++ [PUBLIC_KEY_NAME]) && !force) with
  | true =>
    simp only [generate_keys, hskip, eq_self_iff_true, if_true] at h
    have h1 : fs = fs1 := congrArg (fun x => x.1) (Except.ok.inj h)
    exact h1 ▸ hP
  | false =>
    cases hmkb : mkdirOk fs dir with
    | false =>
      simp only [generate_keys, hskip, Bool.false_eq_true, if_false,
        hmkb, if_true] at h
      exact Except.noConfusion h
    | true =>
      cases s1 with
      | ok =>
        cases s2 with
        | ok =>
          simp only [generate_keys, hskip, Bool.false_eq_true, if_false,
            hmkb, eq_self_iff_true, if_true, hr1, hr2] at h
          have h1 : g2 = fs1 := congrArg (fun x => x.1) (Except.ok.inj h)
          exact h1 ▸ hg2
        | err e =>
          simp only [generate_keys, hskip, Bool.false_eq_true, if_false,
            hmkb, eq_self_iff_true, if_true, hr1, hr2] at h
          have h1 : g2 = fs1 := congrArg (fun x => x.1) (Except.ok.inj h)
          exact h1 ▸ hg2
        | notFound =>
          simp only [generate_keys, hskip, Bool.false_eq_true, if_false,
            hmkb, eq_self_iff_true, if_true, hr1, hr2] at h
          have h1 : g2 = fs1 := congrArg (fun x => x.1) (Except.ok.inj h)
          exact h1 ▸ hg2
      | err e =>
        simp only [generate_keys, hskip, Bool.false_eq_true, if_false,
          hmkb, eq_self_iff_true, if_true, hr1] at h
        have h1 : g1 = fs1 := congrArg (fun x => x.1) (Except.ok.inj h)
        exact h1 ▸ hg1
      | notFound =>
        simp only [generate_keys, hskip, Bool.false_eq_true, if_false,
          hmkb, eq_self_iff_true, if_true, hr1] at h
        have h1 : g1 = fs1 := congrArg (fun x => x.1) (Except.ok.inj h)
        exact h1 ▸ hg1

/-- The provisioning loop returns normally when every processed location
keeps its directory creation precondition, which the primitive is assumed
to preserve. -/
theorem runLocations_ok (prim : Primitive) (root : FPath) (force : Bool)
    (hpres : ∀ (cmd : List String) (g : FS),
      (∀ loc ∈ KEY_LOCATIONS, mkdirOk g (root ++ loc) = true) →
      (∀ loc ∈ KEY_LOCATIONS, mkdirOk (prim.run cmd g).1 (root ++ loc) = true)) :
    ∀ (locs : List FPath), (∀ loc ∈ locs, loc ∈ KEY_LOCATIONS) →
    ∀ (fs : FS), (∀ loc ∈ KEY_LOCATIONS, mkdirOk fs (root ++ loc) = true) →
      ∃ r, runLocations prim root force locs fs = .ok r := by
  intro locs
  induction locs with
  | nil => intro _ fs _; exact ⟨_, rfl⟩
  | cons loc rest ih =>
    intro hsub fs hInv
    obtain ⟨⟨fs1, calls, b⟩, hr⟩ := generate_keys_ok prim (root ++ loc) force fs
      (hInv loc (hsub loc (List.mem_cons_self loc rest)))
    have hInv1 : ∀ l ∈ KEY_LOCATIONS, mkdirOk fs1 (root ++ l) = true :=
      generate_keys_preserves prim (root ++ loc) force fs fs1 calls b
        (fun g => ∀ l ∈ KEY_LOCATIONS, mkdirOk g (root ++ l) = true)
        hInv (fun g d hp => hp) hpres hr
    obtain ⟨⟨fs2, results⟩, hr2⟩ :=
      ih (fun l hl => hsub l (List.mem_cons_of_mem loc hl)) fs1 hInv1
    exact ⟨_, by simp only [runLocations, hr, hr2]; rfl⟩

/-- main returns normally (an exit code, not an uncaught exception) when
the initial state satisfies every location's directory creation
precondition and the primitive preserves it. -/
theorem main_ok (prim : Primitive) (scriptDir : FPath) (force : Bool) (fs : FS)
    (hInv : ∀ loc ∈ KEY_LOCATIONS,
      mkdirOk fs (find_project_root fs scriptDir ++ loc) = true)
    (hpres : ∀ (cmd : List String) (g : FS),
      (∀ loc ∈ KEY_LOCATIONS,
        mkdirOk g (find_project_root fs scriptDir ++ loc) = true) →
      (∀ loc ∈ KEY_LOCATIONS,
        mkdirOk (prim.run cmd g).1 (find_project_root fs scriptDir ++ loc) = true)) :
    ∃ r, main prim scriptDir force fs = .ok r := by
  obtain ⟨⟨fs1, results⟩, hr⟩ := runLocations_ok prim
    (find_project_root fs scriptDir) force hpres KEY_LOCATIONS
    (fun l hl => hl) fs hInv
  exact ⟨_, by simp only [main, hr]; rfl⟩

/-- C7 amended: every failure of the external primitive inside
generate_keys (tool missing, non-zero exit) is caught and converted into a
per-location result, and generate_keys returns normally whenever the
directory creation succeeds; main runs to completion with an exit code
whenever every location keeps its directory creation precondition.  (The
unamended claim is refuted by the counterexample: a directory creation
failure itself is outside the try/except and propagates uncaught.) -/
theorem C7_exception_containment_amended :
    (∀ (prim : Primitive) (dir : FPath) (force : Bool) (fs : FS),
      mkdirOk fs dir = true →
      isOkE (generate_keys prim dir force fs) = true) ∧
    (∀ (prim : Primitive) (scriptDir : FPath) (force : Bool) (fs : FS),
      (∀ loc ∈ KEY_LOCATIONS,
        mkdirOk fs (find_project_root fs scriptDir ++ loc) = true) →
      (∀ (cmd : List String) (g : FS),
        (∀ loc ∈ KEY_LOCATIONS,
          mkdirOk g (find_project_root fs scriptDir ++ loc) = true) →
        (∀ loc ∈ KEY_LOCATIONS,
          mkdirOk (prim.run cmd g).1 (find_project_root fs scriptDir ++ loc) = true)) →
      isOkE (main prim scriptDir force fs) = true) := by
  constructor
  · intro prim dir force fs hmk
    obtain ⟨r, hr⟩ := generate_keys_ok prim dir force fs hmk
    rw [hr]
    rfl
  · intro prim scriptDir force fs hInv hpres
    obtain ⟨r, hr⟩ := main_ok prim scriptDir force fs hInv hpres
    rw [hr]
    rfl

/-- Witness for C7 amended, on the empty filesystem with the unavailable
primitive (which never changes the filesystem). -/
theorem C7_exception_containment_amended_witness :
    isOkE (generate_keys primUnavailable loc0 false fsEmpty) = true ∧
    isOkE (main primUnavailable [] false fsEmpty) = true :=
  ⟨C7_exception_containment_amended.1 primUnavailable loc0 false fsEmpty
     (by decide),
   C7_exception_containment_amended.2 primUnavailable [] false fsEmpty
     (by decide) (fun cmd g h => h)⟩

end GenSecrets
